import Mathlib

/-!
Shallow embedding of the rusty-shooter actor pool, per-tick update driver,
actor serialization, physics contact handling, and the asynchronous
level-load handoff, translated from src/actor.rs and src/main.rs.

Machine floats (f32) are embedded as exact rationals; u32 counters as Nat.
Rust code that can panic (Option::unwrap, Result::unwrap, out-of-bounds
indexing, Pool::free on an invalid handle) is embedded in the Option monad,
with none standing for the panic/abort of the surrounding operation.
Fallible serialization code (Result<_, VisitError>) is embedded as Except.

Code of the repository that lives outside src/ (character.rs, bot.rs,
player.rs, item.rs, jump_pad.rs, level.rs and the rg3d engine's Pool and
Visitor) is modelled from the spec where a claim needs it; each such
definition carries a doc comment saying so.
-/

/-- Vector of three rational coordinates, embedding rg3d's Vector3 of f32. -/
structure Vec3 where
  x : ℚ
  y : ℚ
  z : ℚ
deriving DecidableEq

/-- Componentwise subtraction of vectors. -/
def Vec3.sub (u v : Vec3) : Vec3 :=
  Vec3.mk (u.x - v.x) (u.y - v.y) (u.z - v.z)

/-- Squared Euclidean norm.  The source compares the Euclidean norm against
the literal 1.25; since both sides are nonnegative, the strict comparison
norm v < 5/4 is embedded as normSq v < (5/4)^2. -/
def Vec3.normSq (v : Vec3) : ℚ :=
  v.x ^ 2 + v.y ^ 2 + v.z ^ 2

/-- Handle into a generation-tagged pool: an (index, generation) pair.
Modelled from the spec: the rg3d Pool's Handle type is not under src/. -/
structure PoolHandle where
  index : Nat
  generation : Nat
deriving DecidableEq

/-- Common base record shared by Bot and Player.  Modelled from the spec:
character.rs is not under src/.  It holds health, the opaque physics body
reference, the optional outbound message sender (senderPresent embeds
sender.is_some()), and the despawn-timer flag used by can_be_removed. -/
structure Character where
  health : ℚ
  body : Nat
  senderPresent : Bool
  despawnTimerElapsed : Bool
deriving DecidableEq

/-- Deadness test for a character.  Modelled from the spec: health is a
float with values at or above zero meaning alive, so dead means health < 0. -/
def Character.is_dead (c : Character) : Bool :=
  c.health < 0

/-- Bot-specific state.  Modelled from the spec: bot.rs is not under src/.
knownActors stands for the bot's stored references to other actors, which
the removed-actor callback must purge. -/
structure BotState where
  character : Character
  knownActors : List PoolHandle
deriving DecidableEq

/-- Player-specific state.  Modelled from the spec: player.rs is not under
src/. -/
structure PlayerState where
  character : Character
deriving DecidableEq

instance : Inhabited Character := ⟨Character.mk 0 0 false false⟩

instance : Inhabited BotState := ⟨BotState.mk default []⟩

instance : Inhabited PlayerState := ⟨PlayerState.mk default⟩

/-- Tagged union of the two actor kinds, from src/actor.rs. -/
inductive Actor where
  | bot (b : BotState)
  | player (p : PlayerState)
deriving DecidableEq

/-- Rust's Default for Actor yields Actor::Bot(Default::default()). -/
instance : Inhabited Actor := ⟨Actor.bot default⟩

/-- Shared-base access, embedding the Deref impl of Actor in src/actor.rs. -/
def Actor.character : Actor → Character
  | Actor.bot b => b.character
  | Actor.player p => p.character

/-- Error text produced by Actor::from_id for an out-of-range kind tag. -/
def unknownActorKindMsg : String := "Unknown actor kind "

/-- Kind tag of an actor, from Actor::id in src/actor.rs. -/
def Actor.id : Actor → Nat
  | Actor.player _ => 0
  | Actor.bot _ => 1

/-- Reconstruction of an actor from its kind tag, from Actor::from_id in
src/actor.rs: 0 is Player, 1 is Bot, anything else is an error. -/
def Actor.from_id : Nat → Except String Actor
  | 0 => Except.ok (Actor.player default)
  | 1 => Except.ok (Actor.bot default)
  | n => Except.error (unknownActorKindMsg ++ toString n)

/-- Despawn condition.  Modelled from the spec: can_be_removed is true when
the death condition holds (health at or below zero) and the despawn timer
has elapsed; its body lives in character.rs, outside src/. -/
def Actor.can_be_removed (a : Actor) : Bool :=
  a.character.health ≤ 0 && a.character.despawnTimerElapsed

/-- Messages emitted by the update driver, from message.rs as used by
src/actor.rs: pick-up-item carries the actor and item handles, respawn
carries the actor handle.  Item handles are embedded as pool indices. -/
inductive Message where
  | pickUpItem (actor : PoolHandle) (item : Nat)
  | respawnActor (actor : PoolHandle)
deriving DecidableEq

/-- Per-tick targeting snapshot, from src/actor.rs. -/
structure TargetDescriptor where
  handle : PoolHandle
  health : ℚ
  position : Vec3
deriving DecidableEq

/-- One slot of the generation-tagged pool.  Modelled from the spec: the
rg3d Pool is not under src/; a slot stores its current generation and an
optional payload, present exactly when the slot is alive. -/
structure PoolRecord where
  generation : Nat
  payload : Option Actor
deriving DecidableEq

/-- Generation-tagged slot storage for actors.  Modelled from the spec. -/
structure Pool where
  records : List PoolRecord
deriving DecidableEq

/-- Handle validity: the stored generation matches the handle's generation
and the slot is alive.  Modelled from the spec's Handle invariant. -/
def Pool.is_valid_handle (p : Pool) (h : PoolHandle) : Bool :=
  match p.records.get? h.index with
  | some r => r.generation == h.generation && r.payload.isSome
  | none => false

/-- Count of live entries, embedding Pool::alive_count. -/
def Pool.alive_count (p : Pool) : Nat :=
  p.records.countP (fun r => r.payload.isSome)

/-- Freeing a slot: on a valid handle the payload is dropped and the
generation is bumped so the freed handle goes stale; on an invalid handle
the rg3d pool panics, embedded as none.  Modelled from the spec. -/
def Pool.free (p : Pool) (h : PoolHandle) : Option Pool :=
  match p.records.get? h.index with
  | some r =>
    if r.generation == h.generation && r.payload.isSome then
      some (Pool.mk (p.records.set h.index (PoolRecord.mk (r.generation + 1) none)))
    else none
  | none => none

/-- Alive (handle, actor) pairs of the pool in index order, with an index
accumulator; embeds the pool's pair iteration. -/
def Pool.alivePairsGo : Nat → List PoolRecord → List (PoolHandle × Actor)
  | _, [] => []
  | i, r :: rest =>
    (match r.payload with
     | some a => [(PoolHandle.mk i r.generation, a)]
     | none => []) ++ Pool.alivePairsGo (i + 1) rest

/-- Alive (handle, actor) pairs of the pool, embedding pair_iter. -/
def Pool.alivePairs (p : Pool) : List (PoolHandle × Actor) :=
  Pool.alivePairsGo 0 p.records

/-- Container of actors, from src/actor.rs.  The transient target
descriptor vector is rebuilt from scratch every tick, so it is represented
as an output of the update step rather than stored state. -/
structure ActorContainer where
  pool : Pool
deriving DecidableEq

/-- Handle membership test, from ActorContainer::contains. -/
def ActorContainer.contains (c : ActorContainer) (h : PoolHandle) : Bool :=
  c.pool.is_valid_handle h

/-- Live-entry count, from ActorContainer::count. -/
def ActorContainer.count (c : ActorContainer) : Nat :=
  c.pool.alive_count

/-- Removed-actor callback of a Bot.  Modelled from the spec: bot.rs is not
under src/; the bot drops every stale reference to the removed actor. -/
def BotState.on_actor_removed (b : BotState) (h : PoolHandle) : BotState :=
  BotState.mk b.character (b.knownActors.filter (fun k => k ≠ h))

/-- Per-actor body of the notification loop in ActorContainer::free: a Bot
runs its removed-actor callback, a Player is untouched, from src/actor.rs. -/
def notifyActor (h : PoolHandle) : Actor → Actor
  | Actor.bot b => Actor.bot (b.on_actor_removed h)
  | Actor.player q => Actor.player q

/-- First phase of ActorContainer::free: iterate every actor still in the
pool and run the removed-actor callback on each Bot, from src/actor.rs. -/
def notifyRemoved (p : Pool) (h : PoolHandle) : Pool :=
  Pool.mk (p.records.map (fun r =>
    PoolRecord.mk r.generation (r.payload.map (notifyActor h))))

/-- ActorContainer::free from src/actor.rs: first notify every remaining
Bot of the removal, then free the slot in the pool. -/
def ActorContainer.free (c : ActorContainer) (h : PoolHandle) : Option ActorContainer :=
  (Pool.free (notifyRemoved c.pool h) h).map ActorContainer.mk

/-- World item as the update driver sees it.  Modelled from the spec:
item.rs is not under src/; an item exposes its pivot's world position and
its picked-up flag. -/
structure Item where
  position : Vec3
  pickedUp : Bool
deriving DecidableEq

/-- Per-tick context consumed by ActorContainer::update: the physics body
registry (body handle to translation), the item pool in index order, and
whether the message channel's receiver is still alive (Sender::send fails
exactly when the receiver was dropped). -/
structure UpdateContext where
  bodies : List (Nat × Vec3)
  items : List Item
  receiverAlive : Bool

/-- Association-list lookup keyed by Nat handles, embedding the engine's
handle-keyed registries. -/
def assocLookup {α : Type} : List (Nat × α) → Nat → Option α
  | [], _ => none
  | (k, v) :: rest, key => if k = key then some v else assocLookup rest key

/-- Variant-specific update bodies.  Modelled from the spec: Bot::update
and Player::update live in bot.rs and player.rs, outside src/; the Bot
update consumes the handle and the target snapshot, the Player update its
control state.  They are abstract state transformers here. -/
structure ExternalUpdaters where
  botUpdate : PoolHandle → List TargetDescriptor → BotState → BotState
  playerUpdate : PlayerState → PlayerState

/-- Variant dispatch of the per-actor update, from the match in
ActorContainer::update in src/actor.rs. -/
def dispatchUpdate (ext : ExternalUpdaters) (h : PoolHandle)
    (targets : List TargetDescriptor) : Actor → Actor
  | Actor.bot b => Actor.bot (ext.botUpdate h targets b)
  | Actor.player p => Actor.player (ext.playerUpdate p)

/-- Message emission through the actor's sender: sender.as_ref().unwrap()
panics when the sender is absent, and send(..).unwrap() panics when the
receiver has been dropped; both panics are embedded as none. -/
def sendMsg (senderPresent : Bool) (receiverAlive : Bool) (m : Message) : Option Message :=
  if senderPresent then
    if receiverAlive then some m else none
  else none

/-- Item-pickup scan of one actor over the item list with an index
accumulator, from the inner loop of ActorContainer::update: per item the
actor's body is looked up (unwrap embeds as none), and when the distance
to the item pivot is strictly below 1.25 and the item is unpicked, a
pick-up-item message is sent. -/
def pickupScanGo (ctx : UpdateContext) (a : Actor) (h : PoolHandle) :
    Nat → List Item → Option (List Message)
  | _, [] => some []
  | i, item :: rest => do
    let pos ← assocLookup ctx.bodies a.character.body
    let cur ← if (Vec3.sub item.position pos).normSq < (5/4 : ℚ) ^ 2 && !item.pickedUp then
        (sendMsg a.character.senderPresent ctx.receiverAlive (Message.pickUpItem h i)).map
          (fun m => [m])
      else some []
    let tail ← pickupScanGo ctx a h (i + 1) rest
    some (cur ++ tail)

/-- Item-pickup scan starting at item index zero. -/
def pickupScan (ctx : UpdateContext) (a : Actor) (h : PoolHandle) : Option (List Message) :=
  pickupScanGo ctx a h 0 ctx.items

/-- Per-actor step of the second pass of ActorContainer::update from
src/actor.rs: capture is_dead before the variant update runs, dispatch the
variant update, run the pickup scan only when the pre-update state was not
dead, then emit a respawn message when can_be_removed holds post-update. -/
def processActor (upd : Actor → Actor) (ctx : UpdateContext) (h : PoolHandle)
    (a : Actor) : Option (Actor × List Message) := do
  let isDead := a.character.is_dead
  let a' := upd a
  let pickups ← if isDead then some [] else pickupScan ctx a' h
  let respawns ← if a'.can_be_removed then
      (sendMsg a'.character.senderPresent ctx.receiverAlive (Message.respawnActor h)).map
        (fun m => [m])
    else some []
  some (a', pickups ++ respawns)

/-- First pass of ActorContainer::update: clear and rebuild the target
descriptor list over all live actors, snapshotting handle, health and body
position.  Character::position is modelled from the spec as the physics
body translation (its body lives outside src/), with a zero default. -/
def ActorContainer.targets (ctx : UpdateContext) (c : ActorContainer) : List TargetDescriptor :=
  c.pool.alivePairs.map (fun ha =>
    TargetDescriptor.mk ha.1 ha.2.character.health
      ((assocLookup ctx.bodies ha.2.character.body).getD (Vec3.mk 0 0 0)))

/-- Second pass of ActorContainer::update over the alive pairs: process
each actor in order, threading the panic monad and concatenating emitted
messages in order. -/
def updateGo (ext : ExternalUpdaters) (ctx : UpdateContext)
    (targets : List TargetDescriptor) :
    List (PoolHandle × Actor) → Option (List (PoolHandle × Actor) × List Message)
  | [] => some ([], [])
  | (h, a) :: rest => do
    let r ← processActor (dispatchUpdate ext h targets) ctx h a
    let rr ← updateGo ext ctx targets rest
    some ((h, r.1) :: rr.1, r.2 ++ rr.2)

/-- ActorContainer::update from src/actor.rs: rebuild the target snapshot,
then run the mutable second pass; the result is the updated (handle,
actor) pairs and the messages emitted this tick, or none when any unwrap
panicked. -/
def ActorContainer.update (ext : ExternalUpdaters) (ctx : UpdateContext)
    (c : ActorContainer) : Option (List (PoolHandle × Actor) × List Message) :=
  updateGo ext ctx (ActorContainer.targets ctx c) c.pool.alivePairs

/-- Jump pad as the contact handler sees it.  Modelled from the spec:
jump_pad.rs is not under src/; a pad exposes its rigid body handle and its
configured launch force vector. -/
structure JumpPad where
  rigidBody : Nat
  force : Vec3
deriving DecidableEq

/-- Rigid body record of the physics registry: its collider list (the
primary capsule collider is entry zero) and its linear velocity. -/
structure RigidBody where
  colliders : List Nat
  linvel : Vec3
deriving DecidableEq

/-- Physics registries consumed by ActorContainer::handle_event:
colliderParent maps a native collider id to its parent native body id
(colliders.native_ref(_).parent()), bodyHandleMap pairs each body pool
handle with its native body id (bodies.handle_map(), queried by key_of),
and bodies maps body pool handles to their records. -/
structure Physics where
  colliderParent : List (Nat × Nat)
  bodyHandleMap : List (Nat × Nat)
  bodies : List (Nat × RigidBody)
deriving DecidableEq

/-- Reverse lookup of handle_map().key_of: the pool handle whose native
body id equals the given one. -/
def keyOf : List (Nat × Nat) → Nat → Option Nat
  | [], _ => none
  | (h, n) :: rest, native => if n = native then some h else keyOf rest native

/-- Resolution of a contact collider id to its owning body pool handle,
from the key_of chain in ActorContainer::handle_event; each unwrap along
the chain embeds as none. -/
def resolveBody (phys : Physics) (collider : Nat) : Option Nat := do
  let parentNative ← assocLookup phys.colliderParent collider
  keyOf phys.bodyHandleMap parentNative

/-- Body::set_linvel on the registry: update the linear velocity of the
body stored under the given handle (the wake flag of the source has no
observable effect here). -/
def setLinvel (phys : Physics) (bodyH : Nat) (v : Vec3) : Physics :=
  Physics.mk phys.colliderParent phys.bodyHandleMap
    (phys.bodies.map (fun kb =>
      if kb.1 = bodyH then (kb.1, RigidBody.mk kb.2.colliders v) else kb))

/-- Jump-pad match condition of handle_event in src/actor.rs: the actor's
primary capsule collider equals one contact collider and the pad's rigid
body equals the body resolved from the other. -/
def padMatches (a b : Nat) (collA collB : Nat) (capsule : Nat) (pad : JumpPad) : Bool :=
  (capsule == a && collB == pad.rigidBody) || (capsule == b && collA == pad.rigidBody)

/-- Inner jump-pad loop of handle_event for one actor's body, from
src/actor.rs: per pad, both contact colliders are resolved to body handles
(unwraps embed as none), the actor's body and its first collider are read
(indexing an empty collider list panics, embedded as none), and on a match
the body's linear velocity is set to the pad's force. -/
def padScan (a b : Nat) (bodyH : Nat) : List JumpPad → Physics → Option Physics
  | [], phys => some phys
  | pad :: rest, phys => do
    let collA ← resolveBody phys a
    let collB ← resolveBody phys b
    let body ← assocLookup phys.bodies bodyH
    let capsule ← body.colliders.head?
    let phys' := if padMatches a b collA collB capsule pad then setLinvel phys bodyH pad.force
      else phys
    padScan a b bodyH rest phys'

/-- Outer actor loop of handle_event, from src/actor.rs. -/
def actorScan (a b : Nat) (pads : List JumpPad) : List Actor → Physics → Option Physics
  | [], phys => some phys
  | actor :: rest, phys => do
    let phys' ← padScan a b actor.character.body pads phys
    actorScan a b pads rest phys'

/-- Contact events delivered by the physics engine, carrying two native
collider ids. -/
inductive ContactEvent where
  | started (a b : Nat)
  | stopped (a b : Nat)
deriving DecidableEq

/-- ActorContainer::handle_event from src/actor.rs: only started events
are handled; for every live actor and every jump pad the match condition
is tested and the actor body launched.  The live actors are passed as the
pool's alive list. -/
def ActorContainer.handle_event (ev : ContactEvent) (pads : List JumpPad)
    (actors : List Actor) (phys : Physics) : Option Physics :=
  match ev with
  | ContactEvent.started a b => actorScan a b pads actors phys
  | ContactEvent.stopped _ _ => some phys

/-- Tokens of the self-describing region-tagged serialization stream.
Modelled from the spec: the rg3d Visitor is not under src/; a stream is a
sequence of region-enter marks, region-leave marks, and named fields, with
each variant's own state block opaque to the actor-level code. -/
inductive VToken where
  | enter (name : String)
  | leave
  | u32 (name : String) (value : Nat)
  | playerData (name : String) (value : PlayerState)
  | botData (name : String) (value : BotState)
deriving DecidableEq

/-- Visitor state: the mode flag (is_reading), the remaining input stream
in reading mode, and the accumulated output stream in writing mode.
Modelled from the spec. -/
structure Visitor where
  isReading : Bool
  input : List VToken
  output : List VToken
deriving DecidableEq

/-- Error text for a region or field whose name does not match. -/
def nameMismatchMsg : String := "name mismatch"

/-- Error text for an unexpected token in the input stream. -/
def unexpectedTokenMsg : String := "unexpected token"

/-- Visitor::enter_region: writing appends an enter mark, reading consumes
a matching enter mark or fails.  Modelled from the spec. -/
def enterRegion (name : String) (vis : Visitor) : Except String Visitor :=
  if vis.isReading then
    match vis.input with
    | VToken.enter n :: rest =>
      if n = name then Except.ok (Visitor.mk true rest vis.output)
      else Except.error nameMismatchMsg
    | _ => Except.error unexpectedTokenMsg
  else Except.ok (Visitor.mk false vis.input (vis.output ++ [VToken.enter name]))

/-- Visitor::leave_region: writing appends a leave mark, reading consumes
one or fails.  Modelled from the spec. -/
def leaveRegion (vis : Visitor) : Except String Visitor :=
  if vis.isReading then
    match vis.input with
    | VToken.leave :: rest => Except.ok (Visitor.mk true rest vis.output)
    | _ => Except.error unexpectedTokenMsg
  else Except.ok (Visitor.mk false vis.input (vis.output ++ [VToken.leave]))

/-- Field name of the actor kind tag. -/
def kindIdField : String := "KindId"

/-- Region name of the variant state block. -/
def dataField : String := "Data"

/-- Visit of a u32 field: writing appends the value under the name,
reading consumes a matching field and yields the stored value.  Modelled
from the spec. -/
def visitU32 (name : String) (v : Nat) (vis : Visitor) : Except String (Nat × Visitor) :=
  if vis.isReading then
    match vis.input with
    | VToken.u32 n w :: rest =>
      if n = name then Except.ok (w, Visitor.mk true rest vis.output)
      else Except.error nameMismatchMsg
    | _ => Except.error unexpectedTokenMsg
  else Except.ok (v, Visitor.mk false vis.input (vis.output ++ [VToken.u32 name v]))

/-- Visit of the Player state block, opaque at the actor level.  Modelled
from the spec: player.rs is not under src/. -/
def PlayerState.visit (p : PlayerState) (name : String) (vis : Visitor) :
    Except String (PlayerState × Visitor) :=
  if vis.isReading then
    match vis.input with
    | VToken.playerData n v :: rest =>
      if n = name then Except.ok (v, Visitor.mk true rest vis.output)
      else Except.error nameMismatchMsg
    | _ => Except.error unexpectedTokenMsg
  else Except.ok (p, Visitor.mk false vis.input (vis.output ++ [VToken.playerData name p]))

/-- Visit of the Bot state block, opaque at the actor level.  Modelled
from the spec: bot.rs is not under src/. -/
def BotState.visit (b : BotState) (name : String) (vis : Visitor) :
    Except String (BotState × Visitor) :=
  if vis.isReading then
    match vis.input with
    | VToken.botData n v :: rest =>
      if n = name then Except.ok (v, Visitor.mk true rest vis.output)
      else Except.error nameMismatchMsg
    | _ => Except.error unexpectedTokenMsg
  else Except.ok (b, Visitor.mk false vis.input (vis.output ++ [VToken.botData name b]))

/-- Visit impl of Actor from src/actor.rs: enter the named region, visit
the kind tag under KindId (writing the current tag, or reading the stored
one), in reading mode replace the actor by from_id of the read tag with
the error propagating, then visit the variant's Data block, then leave. -/
def Actor.visit (a : Actor) (name : String) (vis : Visitor) :
    Except String (Actor × Visitor) := do
  let vis ← enterRegion name vis
  let kv ← visitU32 kindIdField a.id vis
  let a ← if kv.2.isReading then Actor.from_id kv.1 else Except.ok a
  match a with
  | Actor.player p => do
    let pv ← PlayerState.visit p dataField kv.2
    let vis ← leaveRegion pv.2
    Except.ok (Actor.player pv.1, vis)
  | Actor.bot b => do
    let bv ← BotState.visit b dataField kv.2
    let vis ← leaveRegion bv.2
    Except.ok (Actor.bot bv.1, vis)

/-- Region name of one pooled actor slot. -/
def actorField : String := "Actor"

/-- Field name of the pooled slot count. -/
def countField : String := "Count"

/-- Region name of the actor pool. -/
def poolField : String := "Pool"

/-- Writing pass over the pooled actors.  Modelled from the spec: the rg3d
Pool's Visit impl is not under src/; per slot the actor's own Visit runs. -/
def writeActors : List Actor → Visitor → Except String Visitor
  | [], vis => Except.ok vis
  | a :: rest, vis => do
    let av ← Actor.visit a actorField vis
    writeActors rest av.2

/-- Reading pass over the pooled actors: read the given number of slots,
each into a default actor replaced via the stored kind tag.  Modelled from
the spec. -/
def readActors : Nat → Visitor → Except String (List Actor × Visitor)
  | 0, vis => Except.ok ([], vis)
  | n + 1, vis => do
    let av ← Actor.visit default actorField vis
    let rv ← readActors n av.2
    Except.ok (av.1 :: rv.1, rv.2)

/-- Visit impl of the actor container over its pooled collection: a Pool
region holding the slot count and then, per slot, the actor's kind tag
followed by its state block.  Modelled from the spec's persisted-state
format; src/actor.rs delegates to the rg3d Pool's Visit impl. -/
def ActorContainer.visitList (as : List Actor) (name : String) (vis : Visitor) :
    Except String (List Actor × Visitor) := do
  let vis ← enterRegion name vis
  let vis ← enterRegion poolField vis
  let cv ← visitU32 countField as.length vis
  if cv.2.isReading then do
    let rv ← readActors cv.1 cv.2
    let vis ← leaveRegion rv.2
    let vis ← leaveRegion vis
    Except.ok (rv.1, vis)
  else do
    let vis ← writeActors as cv.2
    let vis ← leaveRegion vis
    let vis ← leaveRegion vis
    Except.ok (as, vis)

/-- Messages sent to the user-interface widgets by Game::update, reduced
to the two the load poll emits: visibility of the loading-screen root and
progress of the loading-screen progress bar. -/
inductive UiMsg where
  | loadingVisibility (visible : Bool)
  | progress (value : ℚ)
deriving DecidableEq

/-- Live game state touched by the level-load handoff and by load_game:
the installed level and its scene list, the shared load-context cell (the
outer Option is load_context itself, the inner Option the cell's (Level,
Scene) result, both embedded as opaque ids), and the menu/hud visibility.
Level and Scene payloads are opaque Nat ids. -/
structure GameState where
  level : Option Nat
  scenes : List Nat
  loadContext : Option (Option (Nat × Nat))
  menuVisible : Bool
  hudVisible : Bool
deriving DecidableEq

/-- Game::set_menu_visible from src/main.rs: the menu shows iff the hud
hides. -/
def GameState.set_menu_visible (g : GameState) (visible : Bool) : GameState :=
  GameState.mk g.level g.scenes g.loadContext visible (!visible)

/-- Outcome of one frame's load poll: the new state, the UI messages sent,
and how many lock acquisition attempts were made. -/
structure PollResult where
  state : GameState
  uiMessages : List UiMsg
  lockAttempts : Nat
deriving DecidableEq

/-- Load-polling section of Game::update from src/main.rs: when a load
context exists, one try_lock attempt is made; on acquisition with a
present result the scene is added to the engine, the level installed, the
load context dropped, the menu hidden and the loading screen hidden; on
acquisition with an absent result a progress message is sent; on a failed
lock attempt nothing happens.  lockAcquired embeds the try_lock outcome
and loadingProgress the resource manager's loading percentage. -/
def Game.pollLoadContext (lockAcquired : Bool) (loadingProgress : ℚ) (g : GameState) :
    PollResult :=
  match g.loadContext with
  | none => PollResult.mk g [] 0
  | some cell =>
    if lockAcquired then
      match cell with
      | some ls =>
        PollResult.mk
          ((GameState.mk (some ls.1) (g.scenes ++ [ls.2]) none g.menuVisible
            g.hudVisible).set_menu_visible false)
          [UiMsg.loadingVisibility false] 1
      | none => PollResult.mk g [UiMsg.progress (loadingProgress / 100)] 1
    else PollResult.mk g [] 1

/-- Game::destroy_level from src/main.rs: drop the current level if any;
Level::destroy releases its scene resources (its body lives in level.rs,
outside src/, modelled from the spec as dropping the level). -/
def GameState.destroy_level (g : GameState) : GameState :=
  GameState.mk none g.scenes g.loadContext g.menuVisible g.hudVisible

/-- Contents of a successfully opened save file: the combined outcome of
visiting the engine, level, sound-context and music state out of the
visitor, yielding the level to install (those Visit impls live outside
src/, modelled from the spec as an opaque outcome carried by the file). -/
structure SaveData where
  levelResult : Except String (Option Nat)

/-- Game::load_game from src/main.rs: Visitor::load_binary runs first and
its error returns immediately, before any teardown; only with the file
loaded is the current level destroyed, the saved state visited (whose
error also propagates), and on full success the menu hidden. -/
def Game.load_game (file : Except String SaveData) (g : GameState) :
    GameState × Except String Unit :=
  match file with
  | Except.error e => (g, Except.error e)
  | Except.ok sd =>
    match sd.levelResult with
    | Except.error e => (g.destroy_level, Except.error e)
    | Except.ok lvl =>
      ((GameState.mk lvl g.destroy_level.scenes g.destroy_level.loadContext
        g.menuVisible g.hudVisible).set_menu_visible false, Except.ok Unit.unit)

/-- Token image of one actor's Visit in writing mode: the region enter,
the kind tag, the variant's state block, the region leave. -/
def payloadToken : Actor → VToken
  | Actor.player p => VToken.playerData dataField p
  | Actor.bot b => VToken.botData dataField b

/-- Tokens written for one actor under the given region name. -/
def actorTokens (name : String) (a : Actor) : List VToken :=
  [VToken.enter name, VToken.u32 kindIdField a.id, payloadToken a, VToken.leave]

/-- Tokens written for a list of pooled actors. -/
def actorsTokens (as : List Actor) : List VToken :=
  (as.map (actorTokens actorField)).flatten

/-- Tokens written for a whole actor container under the given name. -/
def containerTokens (name : String) (as : List Actor) : List VToken :=
  VToken.enter name :: VToken.enter poolField :: VToken.u32 countField as.length ::
    actorsTokens as ++ [VToken.leave, VToken.leave]

/-- Force applied by the last jump pad of the list matching the contact,
starting from the given prior velocity; this is what the pad loop of
handle_event leaves in the body. -/
def lastMatchForce (a b collA collB capsule : Nat) (pads : List JumpPad) (v : Vec3) : Vec3 :=
  pads.foldl (fun w pad => if padMatches a b collA collB capsule pad then pad.force else w) v

/-- External variant updates that leave every actor unchanged. -/
def identityUpdaters : ExternalUpdaters :=
  ExternalUpdaters.mk (fun _ _ bs => bs) (fun p => p)

/-- External variant updates under which the player dies during its update
step: its health drops below zero. -/
def lethalUpdaters : ExternalUpdaters :=
  ExternalUpdaters.mk (fun _ _ bs => bs)
    (fun p => PlayerState.mk (Character.mk (-1) p.character.body p.character.senderPresent
      p.character.despawnTimerElapsed))

/-- Sample live player: full health, body 0, sender present. -/
def samplePlayer : Actor :=
  Actor.player (PlayerState.mk (Character.mk 100 0 true false))

/-- Sample dead player: negative health, body 0, sender present. -/
def deadPlayer : Actor :=
  Actor.player (PlayerState.mk (Character.mk (-5) 0 true false))

/-- Sample items: one unpicked item at distance exactly 1.25 from the
origin, one unpicked item at distance 1.2499. -/
def sampleItems : List Item :=
  [Item.mk (Vec3.mk (5/4) 0 0) false, Item.mk (Vec3.mk (12499/10000) 0 0) false]

/-- Sample tick context with the channel receiver alive. -/
def liveCtx : UpdateContext :=
  UpdateContext.mk [(0, Vec3.mk 0 0 0)] sampleItems true

/-- Sample tick context with the channel receiver dropped. -/
def droppedCtx : UpdateContext :=
  UpdateContext.mk [(0, Vec3.mk 0 0 0)] sampleItems false

/-- Sample container holding the one live player. -/
def sampleContainer : ActorContainer :=
  ActorContainer.mk (Pool.mk [PoolRecord.mk 0 (some samplePlayer)])

/-- Handle of the sample player in its container. -/
def sampleHandle : PoolHandle := PoolHandle.mk 0 0

/-- Sample dead player whose despawn timer has elapsed, so the respawn
condition holds and update emits a respawn message for it. -/
def doomedPlayer : Actor :=
  Actor.player (PlayerState.mk (Character.mk (-5) 0 true true))

/-- Container holding only the doomed player. -/
def doomedContainer : ActorContainer :=
  ActorContainer.mk (Pool.mk [PoolRecord.mk 0 (some doomedPlayer)])

/-- Game state before any load: no level, no load context, menu shown. -/
def loadingIdle : GameState := GameState.mk none [] none true false

/-- Game state mid-load: load context allocated, background result still
absent, menu hidden. -/
def loadingBusy : GameState := GameState.mk none [] (some none) false true

/-- Game state mid-load with the background result present in the cell. -/
def loadingReady : GameState := GameState.mk none [] (some (some (7, 9))) false true

/-- Handle about to be freed in the two-bot container. -/
def staleHandle : PoolHandle := PoolHandle.mk 1 3

/-- Bot in slot 0 holding a reference to the handle about to be freed. -/
def watcherBot : Actor :=
  Actor.bot (BotState.mk (Character.mk 40 2 true false) [staleHandle, PoolHandle.mk 0 0])

/-- Bot stored at the freed handle itself, holding a reference to its own
handle. -/
def selfBot : Actor :=
  Actor.bot (BotState.mk (Character.mk 30 3 true false) [staleHandle])

/-- Container with two bots, the second sitting at the handle to free. -/
def twoBotContainer : ActorContainer :=
  ActorContainer.mk (Pool.mk [PoolRecord.mk 0 (some watcherBot), PoolRecord.mk 3 (some selfBot)])

/-- Physics world for the jump-pad scenario: collider 100 belongs to
native body 500 owned by pool body 10 (the actor's capsule), collider 101
to native body 501 owned by pool body 11 (the pad side); body 10 starts at
rest. -/
def c8phys : Physics :=
  Physics.mk [(100, 500), (101, 501)] [(10, 500), (11, 501)]
    [(10, RigidBody.mk [100] (Vec3.mk 0 0 0))]

/-- Actor whose body is pool body 10 in the jump-pad scenario. -/
def c8actor : Actor :=
  Actor.player (PlayerState.mk (Character.mk 100 10 true false))

/-- First jump pad on rigid body 11, force (1, 0, 0). -/
def c8padA : JumpPad := JumpPad.mk 11 (Vec3.mk 1 0 0)

/-- Second jump pad on the same rigid body 11, force (2, 0, 0). -/
def c8padB : JumpPad := JumpPad.mk 11 (Vec3.mk 2 0 0)

/-- Error text standing for a save file that could not be opened or parsed. -/
def fileErrMsg : String := "corrupt save"

/-- C10: if opening or parsing the save file fails, Game::load_game
returns the error before any teardown: the level, menu visibility and the
rest of the state are untouched; teardown (destroy_level) happens only
once the save file has been loaded into a visitor, even when a later visit
of the saved state fails. -/
theorem c10_load_error_preserves_state :
    (∀ (g : GameState) (e : String), Game.load_game (Except.error e) g = (g, Except.error e)) ∧
    (∀ (g : GameState) (sd : SaveData) (e : String), sd.levelResult = Except.error e →
      Game.load_game (Except.ok sd) g = (g.destroy_level, Except.error e)) := by
  constructor
  · intro g e
    rfl
  · intro g sd e he
    simp [Game.load_game, he]

/-- Witness for C10 at a concrete state and error. -/
theorem c10_witness :
    (SaveData.mk (Except.error fileErrMsg)).levelResult = Except.error fileErrMsg ∧
    Game.load_game (Except.error fileErrMsg) loadingIdle = (loadingIdle, Except.error fileErrMsg) ∧
    Game.load_game (Except.ok (SaveData.mk (Except.error fileErrMsg))) loadingIdle =
      (loadingIdle.destroy_level, Except.error fileErrMsg) :=
  ⟨rfl, c10_load_error_preserves_state.1 loadingIdle fileErrMsg,
    c10_load_error_preserves_state.2 loadingIdle (SaveData.mk (Except.error fileErrMsg))
      fileErrMsg rfl⟩

/-- C2 counterexample: the claim says a failed lock attempt still reports
loading progress to the loading-screen widget, but when try_lock fails the
code sends no UI message at all (and leaves the state unchanged). -/
theorem c2_counterexample :
    (Game.pollLoadContext false 50 loadingBusy).uiMessages = [] ∧
    (Game.pollLoadContext false 50 loadingBusy).state = loadingBusy := by
  constructor <;> rfl

/-- C2, amended: per frame with a load in progress exactly one
non-blocking lock attempt is made; on acquisition with the result present
the (Level, Scene) pair moves into the engine state, the load context is
cleared (so later frames make no further attempt), the menu stays hidden
and the loading screen is hidden; on acquisition with the result absent
only a progress message is sent; on a failed lock attempt nothing at all
happens that frame (no swap and no progress report). -/
theorem c2_load_poll_behavior (g : GameState) (lockOk : Bool) (prog : ℚ) :
    (g.loadContext = none → Game.pollLoadContext lockOk prog g = PollResult.mk g [] 0) ∧
    (∀ cell, g.loadContext = some cell →
      (Game.pollLoadContext lockOk prog g).lockAttempts = 1) ∧
    (∀ cell, g.loadContext = some cell → lockOk = false →
      Game.pollLoadContext lockOk prog g = PollResult.mk g [] 1) ∧
    (g.loadContext = some none → lockOk = true →
      Game.pollLoadContext lockOk prog g = PollResult.mk g [UiMsg.progress (prog / 100)] 1) ∧
    (∀ lvl scene, g.loadContext = some (some (lvl, scene)) → lockOk = true →
      Game.pollLoadContext lockOk prog g =
        PollResult.mk (GameState.mk (some lvl) (g.scenes ++ [scene]) none false true)
          [UiMsg.loadingVisibility false] 1) := by
  refine ⟨fun h => ?_, fun cell h => ?_, fun cell h hl => ?_, fun h hl => ?_,
    fun lvl scene h hl => ?_⟩
  · simp [Game.pollLoadContext, h]
  · cases lockOk <;> cases cell <;> simp [Game.pollLoadContext, h]
  · subst hl
    simp [Game.pollLoadContext, h]
  · subst hl
    simp [Game.pollLoadContext, h]
  · subst hl
    simp [Game.pollLoadContext, h, GameState.set_menu_visible]

/-- Witness for C2 at concrete states: idle frame, failed lock, acquired
lock with absent result, acquired lock with present result. -/
theorem c2_witness :
    loadingIdle.loadContext = none ∧
    Game.pollLoadContext true 50 loadingIdle = PollResult.mk loadingIdle [] 0 ∧
    loadingBusy.loadContext = some none ∧
    Game.pollLoadContext false 50 loadingBusy = PollResult.mk loadingBusy [] 1 ∧
    Game.pollLoadContext true 50 loadingBusy =
      PollResult.mk loadingBusy [UiMsg.progress (50 / 100)] 1 ∧
    Game.pollLoadContext true 50 loadingReady =
      PollResult.mk (GameState.mk (some 7) [9] none false true)
        [UiMsg.loadingVisibility false] 1 := by
  refine ⟨rfl, (c2_load_poll_behavior loadingIdle true 50).1 rfl, rfl,
    (c2_load_poll_behavior loadingBusy false 50).2.2.1 none rfl rfl,
    (c2_load_poll_behavior loadingBusy true 50).2.2.2.1 rfl rfl, ?_⟩
  have h := (c2_load_poll_behavior loadingReady true 50).2.2.2.2 7 9 rfl rfl
  simpa [loadingReady] using h

/-- C5: every kind tag outside the known set makes Actor::from_id return
an error, and Actor::visit in reading mode propagates that error out of
the load without producing any replacement actor (the visited value is
only overwritten by a successful from_id, so the failed load cannot
corrupt it). -/
theorem c5_unknown_tag_aborts (id : Nat) (hid : 2 ≤ id) :
    Actor.from_id id = Except.error (unknownActorKindMsg ++ toString id) ∧
    ∀ (a : Actor) (name : String) (rest output : List VToken),
      Actor.visit a name
        (Visitor.mk true (VToken.enter name :: VToken.u32 kindIdField id :: rest) output) =
        Except.error (unknownActorKindMsg ++ toString id) := by
  obtain ⟨n, rfl⟩ : ∃ n, id = n + 2 := ⟨id - 2, by omega⟩
  constructor
  · rfl
  · intro a name rest output
    have hf : Actor.from_id (n + 2) = Except.error (unknownActorKindMsg ++ toString (n + 2)) := rfl
    simp [Actor.visit, enterRegion, visitU32, hf, Bind.bind, Except.bind]

/-- Witness for C5 at tag 7. -/
theorem c5_witness :
    (2 ≤ 7 ∧ Actor.from_id 7 = Except.error (unknownActorKindMsg ++ toString 7)) ∧
    Actor.visit samplePlayer actorField
      (Visitor.mk true [VToken.enter actorField, VToken.u32 kindIdField 7] []) =
      Except.error (unknownActorKindMsg ++ toString 7) :=
  ⟨⟨by omega, (c5_unknown_tag_aborts 7 (by omega)).1⟩,
    (c5_unknown_tag_aborts 7 (by omega)).2 samplePlayer actorField [] []⟩

/-- Helper: the pickup scan hits the send unwrap as soon as any unpicked
in-range item exists while the receiver is dropped, so the scan panics. -/
theorem pickupScanGo_sendFail (ctx : UpdateContext) (a : Actor) (h : PoolHandle) (pos : Vec3)
    (hbody : assocLookup ctx.bodies a.character.body = some pos)
    (hsender : a.character.senderPresent = true)
    (hrecv : ctx.receiverAlive = false) :
    ∀ (items : List Item) (i j : Nat) (item : Item), items.get? j = some item →
      item.pickedUp = false → (Vec3.sub item.position pos).normSq < (5/4 : ℚ) ^ 2 →
      pickupScanGo ctx a h i items = none := by
  intro items
  induction items with
  | nil =>
    intro i j item hj hup hdist
    simp at hj
  | cons it rest ih =>
    intro i j item hj hup hdist
    cases j with
    | zero =>
      simp at hj
      subst hj
      simp [pickupScanGo, hbody, hdist, hup, sendMsg, hsender, hrecv]
    | succ k =>
      rw [List.get?_cons_succ] at hj
      have htail := ih (i + 1) k item hj hup hdist
      by_cases hc1 : (Vec3.sub it.position pos).normSq < (5/4 : ℚ) ^ 2
      · by_cases hc2 : it.pickedUp = true
        · simp [pickupScanGo, hbody, hc1, hc2, htail]
        · have hc2f : it.pickedUp = false := by simpa using hc2
          simp [pickupScanGo, hbody, hc1, hc2f, sendMsg, hsender, hrecv]
      · simp [pickupScanGo, hbody, hc1, htail]

/-- Helper: a pre-update-alive actor whose scan meets an unpicked in-range
item panics in processActor when the receiver is dropped. -/
theorem processActor_pickupPanic (upd : Actor → Actor) (ctx : UpdateContext) (h : PoolHandle)
    (a : Actor) (pos : Vec3) (i : Nat) (item : Item)
    (halive : a.character.is_dead = false)
    (hbody : assocLookup ctx.bodies (upd a).character.body = some pos)
    (hsender : (upd a).character.senderPresent = true)
    (hrecv : ctx.receiverAlive = false)
    (hitem : ctx.items.get? i = some item)
    (hup : item.pickedUp = false)
    (hdist : (Vec3.sub item.position pos).normSq < (5/4 : ℚ) ^ 2) :
    processActor upd ctx h a = none := by
  have hscan := pickupScanGo_sendFail ctx (upd a) h pos hbody hsender hrecv ctx.items 0 i item
    hitem hup hdist
  simp [processActor, halive, pickupScan, hscan]

/-- Helper: the second pass aborts as soon as any member actor's step
panics. -/
theorem updateGo_of_mem_none (ext : ExternalUpdaters) (ctx : UpdateContext)
    (targets : List TargetDescriptor) :
    ∀ (l : List (PoolHandle × Actor)) (h : PoolHandle) (a : Actor), (h, a) ∈ l →
      processActor (dispatchUpdate ext h targets) ctx h a = none →
      updateGo ext ctx targets l = none := by
  intro l
  induction l with
  | nil =>
    intro h a hmem
    simp at hmem
  | cons ha rest ih =>
    intro h a hmem hfail
    rcases List.mem_cons.mp hmem with heq | htail
    · rw [updateGo, heq.symm] at *
      simp [hfail]
    · cases hres : processActor (dispatchUpdate ext ha.1 targets) ctx ha.1 ha.2 with
      | none => simp [updateGo, hres]
      | some r => simp [updateGo, hres, ih h a htail hfail]

/-- C1 counterexample: with the channel receiver dropped and one live
actor near one unpicked item, ActorContainer::update panics (the send
result is unwrapped), so the emission does abort the update. -/
theorem c1_counterexample :
    ActorContainer.update identityUpdaters droppedCtx sampleContainer = none := by
  norm_num [ActorContainer.update, updateGo, processActor, pickupScan, pickupScanGo,
    dispatchUpdate, identityUpdaters, droppedCtx, sampleContainer, samplePlayer, sampleItems,
    Pool.alivePairs, Pool.alivePairsGo, ActorContainer.targets, assocLookup, sendMsg,
    Actor.character, Character.is_dead, Vec3.sub, Vec3.normSq]

/-- Helper: an actor removable after its update panics on the respawn
emission in processActor when the receiver is dropped, whether or not the
pickup scan ran before it. -/
theorem processActor_respawnPanic (upd : Actor → Actor) (ctx : UpdateContext) (h : PoolHandle)
    (a : Actor)
    (hcr : (upd a).can_be_removed = true)
    (hsender : (upd a).character.senderPresent = true)
    (hrecv : ctx.receiverAlive = false) :
    processActor upd ctx h a = none := by
  by_cases hdead : a.character.is_dead = true
  · simp [processActor, hdead, hcr, sendMsg, hsender, hrecv]
  · have hdf : a.character.is_dead = false := by simpa using hdead
    cases hps : pickupScan ctx (upd a) h with
    | none => simp [processActor, hdf, hps]
    | some ms => simp [processActor, hdf, hps, hcr, sendMsg, hsender, hrecv]

/-- C1, amended: emitting a pick-up-item or a respawn-actor message during
ActorContainer::update when the channel receiver has been dropped panics
and aborts the whole update, because the send result is unwrapped; send
failure is a fatal programming-error-class failure, not a recoverable one.
The first part settles the pickup emission (a pre-update-live actor with
an unpicked in-range item), the second the respawn emission (any actor,
dead or alive before its update, that is removable after it). -/
theorem c1_send_panics_when_receiver_dropped (ext : ExternalUpdaters) (ctx : UpdateContext)
    (c : ActorContainer) (hrecv : ctx.receiverAlive = false) :
    (∀ (h : PoolHandle) (a : Actor) (pos : Vec3) (i : Nat) (item : Item),
      (h, a) ∈ c.pool.alivePairs →
      a.character.is_dead = false →
      (dispatchUpdate ext h (ActorContainer.targets ctx c) a).character.senderPresent = true →
      assocLookup ctx.bodies
        (dispatchUpdate ext h (ActorContainer.targets ctx c) a).character.body = some pos →
      ctx.items.get? i = some item → item.pickedUp = false →
      (Vec3.sub item.position pos).normSq < (5/4 : ℚ) ^ 2 →
      ActorContainer.update ext ctx c = none) ∧
    (∀ (h : PoolHandle) (a : Actor),
      (h, a) ∈ c.pool.alivePairs →
      (dispatchUpdate ext h (ActorContainer.targets ctx c) a).can_be_removed = true →
      (dispatchUpdate ext h (ActorContainer.targets ctx c) a).character.senderPresent = true →
      ActorContainer.update ext ctx c = none) := by
  constructor
  · intro h a pos i item hmem halive hsender hbody hitem hup hdist
    exact updateGo_of_mem_none ext ctx (ActorContainer.targets ctx c) c.pool.alivePairs h a
      hmem (processActor_pickupPanic (dispatchUpdate ext h (ActorContainer.targets ctx c))
        ctx h a pos i item halive hbody hsender hrecv hitem hup hdist)
  · intro h a hmem hcr hsender
    exact updateGo_of_mem_none ext ctx (ActorContainer.targets ctx c) c.pool.alivePairs h a
      hmem (processActor_respawnPanic (dispatchUpdate ext h (ActorContainer.targets ctx c))
        ctx h a hcr hsender hrecv)

/-- Witness for C1: both emission kinds panic concretely with the receiver
dropped: the live sample player's pickup emission, and the respawn
emission of the dead doomed player whose despawn timer has elapsed. -/
theorem c1_witness :
    samplePlayer.character.is_dead = false ∧
    droppedCtx.receiverAlive = false ∧
    doomedPlayer.character.is_dead = true ∧
    (dispatchUpdate identityUpdaters sampleHandle
      (ActorContainer.targets droppedCtx doomedContainer) doomedPlayer).can_be_removed
      = true ∧
    ActorContainer.update identityUpdaters droppedCtx sampleContainer = none ∧
    ActorContainer.update identityUpdaters droppedCtx doomedContainer = none := by
  have hcr : (dispatchUpdate identityUpdaters sampleHandle
      (ActorContainer.targets droppedCtx doomedContainer) doomedPlayer).can_be_removed
      = true := by
    norm_num [dispatchUpdate, identityUpdaters, doomedPlayer, Actor.character,
      Actor.can_be_removed]
  refine ⟨by norm_num [samplePlayer, Actor.character, Character.is_dead], rfl,
    by norm_num [doomedPlayer, Actor.character, Character.is_dead], hcr, ?_, ?_⟩
  · exact (c1_send_panics_when_receiver_dropped identityUpdaters droppedCtx sampleContainer
      rfl).1 sampleHandle samplePlayer (Vec3.mk 0 0 0) 1
      (Item.mk (Vec3.mk (12499/10000) 0 0) false)
      (by simp [sampleContainer, Pool.alivePairs, Pool.alivePairsGo, sampleHandle])
      (by norm_num [samplePlayer, Actor.character, Character.is_dead])
      rfl rfl rfl rfl
      (by norm_num [Vec3.sub, Vec3.normSq])
  · exact (c1_send_panics_when_receiver_dropped identityUpdaters droppedCtx doomedContainer
      rfl).2 sampleHandle doomedPlayer
      (by simp [doomedContainer, Pool.alivePairs, Pool.alivePairsGo, sampleHandle])
      hcr rfl

/-- Helper: a successful send returns exactly the message it was given. -/
theorem sendMsg_eq (s r : Bool) (m m' : Message) (hs : sendMsg s r m = some m') : m' = m := by
  by_cases h1 : s = true
  · by_cases h2 : r = true
    · simp [sendMsg, h1, h2] at hs
      exact hs.symm
    · simp [sendMsg, h1, h2] at hs
  · simp [sendMsg, h1] at hs

/-- Helper: with the sender present and the receiver alive, the pickup
scan over an item list succeeds, and it emits a pick-up message for an
item index exactly when that item is unpicked and strictly within the
1.25 radius of the actor's body. -/
theorem pickupScanGo_mem (ctx : UpdateContext) (a : Actor) (h : PoolHandle) (pos : Vec3)
    (hbody : assocLookup ctx.bodies a.character.body = some pos)
    (hsender : a.character.senderPresent = true)
    (hrecv : ctx.receiverAlive = true) :
    ∀ (items : List Item) (i : Nat), ∃ ms, pickupScanGo ctx a h i items = some ms ∧
      ∀ (h' : PoolHandle) (j : Nat), Message.pickUpItem h' j ∈ ms ↔
        (h' = h ∧ ∃ k item, items.get? k = some item ∧ j = i + k ∧ item.pickedUp = false ∧
          (Vec3.sub item.position pos).normSq < (5/4 : ℚ) ^ 2) := by
  intro items
  induction items with
  | nil =>
    intro i
    refine ⟨[], rfl, ?_⟩
    intro h' j
    simp
  | cons it rest ih =>
    intro i
    obtain ⟨ms', hms', hmem'⟩ := ih (i + 1)
    by_cases hc1 : (Vec3.sub it.position pos).normSq < (5/4 : ℚ) ^ 2
    · by_cases hc2 : it.pickedUp = true
      · refine ⟨ms', by simp [pickupScanGo, hbody, hc1, hc2, hms'], ?_⟩
        intro h' j
        rw [hmem' h' j]
        constructor
        · rintro ⟨rfl, k, item, hk, hj, hup, hdist⟩
          exact ⟨rfl, k + 1, item, by simpa using hk, by omega, hup, hdist⟩
        · rintro ⟨rfl, k, item, hk, hj, hup, hdist⟩
          cases k with
          | zero =>
            rw [List.get?_cons_zero] at hk
            cases hk
            exact absurd hup (by simp [hc2])
          | succ k' =>
            rw [List.get?_cons_succ] at hk
            exact ⟨rfl, k', item, hk, by omega, hup, hdist⟩
      · have hc2f : it.pickedUp = false := by simpa using hc2
        refine ⟨Message.pickUpItem h i :: ms',
          by simp [pickupScanGo, hbody, hc1, hc2f, sendMsg, hsender, hrecv, hms'], ?_⟩
        intro h' j
        constructor
        · intro hm
          rcases List.mem_cons.mp hm with heq | htl
          · injection heq with e1 e2
            subst e1
            subst e2
            exact ⟨rfl, 0, it, rfl, by omega, hc2f, hc1⟩
          · obtain ⟨rfl, k, item, hk, hj, hup, hdist⟩ := (hmem' h' j).mp htl
            exact ⟨rfl, k + 1, item, by simpa using hk, by omega, hup, hdist⟩
        · rintro ⟨rfl, k, item, hk, hj, hup, hdist⟩
          cases k with
          | zero =>
            rw [List.get?_cons_zero] at hk
            cases hk
            have hji : j = i := by omega
            subst hji
            exact List.mem_cons_self _ _
          | succ k' =>
            rw [List.get?_cons_succ] at hk
            exact List.mem_cons_of_mem _
              ((hmem' _ j).mpr ⟨rfl, k', item, hk, by omega, hup, hdist⟩)
    · refine ⟨ms', by simp [pickupScanGo, hbody, hc1, hms'], ?_⟩
      intro h' j
      rw [hmem' h' j]
      constructor
      · rintro ⟨rfl, k, item, hk, hj, hup, hdist⟩
        exact ⟨rfl, k + 1, item, by simpa using hk, by omega, hup, hdist⟩
      · rintro ⟨rfl, k, item, hk, hj, hup, hdist⟩
        cases k with
        | zero =>
          rw [List.get?_cons_zero] at hk
          cases hk
          exact absurd hdist hc1
        | succ k' =>
          rw [List.get?_cons_succ] at hk
          exact ⟨rfl, k', item, hk, by omega, hup, hdist⟩

/-- Helper: full characterization of the per-actor step for a pre-update
live actor under a working channel: the step succeeds and emits a pickup
message for an item index exactly when that item is unpicked and strictly
within the 1.25 radius. -/
theorem processActor_alive_spec (upd : Actor → Actor) (ctx : UpdateContext) (h : PoolHandle)
    (a : Actor) (pos : Vec3)
    (halive : a.character.is_dead = false)
    (hsender : (upd a).character.senderPresent = true)
    (hrecv : ctx.receiverAlive = true)
    (hbody : assocLookup ctx.bodies (upd a).character.body = some pos) :
    ∃ a' ms, processActor upd ctx h a = some (a', ms) ∧
      ∀ (h' : PoolHandle) (i : Nat), Message.pickUpItem h' i ∈ ms ↔
        (h' = h ∧ ∃ item, ctx.items.get? i = some item ∧ item.pickedUp = false ∧
          (Vec3.sub item.position pos).normSq < (5/4 : ℚ) ^ 2) := by
  obtain ⟨ms, hms, hmem⟩ := pickupScanGo_mem ctx (upd a) h pos hbody hsender hrecv ctx.items 0
  by_cases hcr : (upd a).can_be_removed = true
  · refine ⟨upd a, ms ++ [Message.respawnActor h],
      by simp [processActor, halive, pickupScan, hms, hcr, sendMsg, hsender, hrecv], ?_⟩
    intro h' i
    constructor
    · intro hm
      rcases List.mem_append.mp hm with hin | hin
      · obtain ⟨rfl, k, item, hk, hik, hup, hdist⟩ := (hmem h' i).mp hin
        have hki : k = i := by omega
        subst hki
        exact ⟨rfl, item, hk, hup, hdist⟩
      · simp at hin
    · rintro ⟨rfl, item, hk, hup, hdist⟩
      exact List.mem_append.mpr (Or.inl ((hmem _ i).mpr ⟨rfl, i, item, hk, by omega, hup, hdist⟩))
  · have hcrf : (upd a).can_be_removed = false := by simpa using hcr
    refine ⟨upd a, ms, by simp [processActor, halive, pickupScan, hms, hcrf], ?_⟩
    intro h' i
    rw [hmem h' i]
    constructor
    · rintro ⟨rfl, k, item, hk, hik, hup, hdist⟩
      have hki : k = i := by omega
      subst hki
      exact ⟨rfl, item, hk, hup, hdist⟩
    · rintro ⟨rfl, item, hk, hup, hdist⟩
      exact ⟨rfl, i, item, hk, by omega, hup, hdist⟩

/-- C3: the per-actor step captures deadness before the variant update and
gates the pickup scan on that pre-update state: an actor dead before its
update emits no pickup message at all this tick, while an actor alive
before its update still emits pickup messages for in-range unpicked items
even when the update itself killed it. -/
theorem c3_pickup_gated_on_pre_update_state (upd : Actor → Actor) (ctx : UpdateContext)
    (h : PoolHandle) (a : Actor) :
    (a.character.is_dead = true → ∀ a' ms, processActor upd ctx h a = some (a', ms) →
      ∀ (h' : PoolHandle) (i : Nat), Message.pickUpItem h' i ∉ ms) ∧
    (a.character.is_dead = false → (upd a).character.is_dead = true →
      ∀ (pos : Vec3) (i : Nat) (item : Item), (upd a).character.senderPresent = true →
        ctx.receiverAlive = true →
        assocLookup ctx.bodies (upd a).character.body = some pos →
        ctx.items.get? i = some item → item.pickedUp = false →
        (Vec3.sub item.position pos).normSq < (5/4 : ℚ) ^ 2 →
        ∃ a' ms, processActor upd ctx h a = some (a', ms) ∧
          Message.pickUpItem h i ∈ ms) := by
  constructor
  · intro hdead a' ms hp h' i
    by_cases hcr : (upd a).can_be_removed = true
    · cases hsm : sendMsg ((upd a).character.senderPresent) ctx.receiverAlive
        (Message.respawnActor h) with
      | none => simp [processActor, hdead, hcr, hsm] at hp
      | some m =>
        have hm := sendMsg_eq _ _ _ _ hsm
        subst hm
        simp [processActor, hdead, hcr, hsm] at hp
        rw [← hp.2]
        simp
    · have hcrf : (upd a).can_be_removed = false := by simpa using hcr
      simp [processActor, hdead, hcrf] at hp
      rw [hp.2]
      simp
  · intro halive hdied pos i item hsender hrecv hbody hitem hup hdist
    obtain ⟨a', ms, hp, hmem⟩ := processActor_alive_spec upd ctx h a pos halive hsender
      hrecv hbody
    exact ⟨a', ms, hp, (hmem h i).mpr ⟨rfl, item, hitem, hup, hdist⟩⟩

/-- Witness for C3: the live sample player killed by its own update step
still picks up the in-range item this tick, and the already-dead player's
step emits no pickup message. -/
theorem c3_witness :
    samplePlayer.character.is_dead = false ∧
    (dispatchUpdate lethalUpdaters sampleHandle [] samplePlayer).character.is_dead = true ∧
    deadPlayer.character.is_dead = true ∧
    (∃ a' ms,
      processActor (dispatchUpdate lethalUpdaters sampleHandle []) liveCtx sampleHandle
        samplePlayer = some (a', ms) ∧ Message.pickUpItem sampleHandle 1 ∈ ms) ∧
    Message.pickUpItem sampleHandle 0 ∉ ([] : List Message) := by
  have h1 : samplePlayer.character.is_dead = false := by
    norm_num [samplePlayer, Actor.character, Character.is_dead]
  have h2 : (dispatchUpdate lethalUpdaters sampleHandle [] samplePlayer).character.is_dead
      = true := by
    norm_num [dispatchUpdate, lethalUpdaters, samplePlayer, Actor.character, Character.is_dead]
  have h3 : deadPlayer.character.is_dead = true := by
    norm_num [deadPlayer, Actor.character, Character.is_dead]
  have h4 : processActor (fun x => x) liveCtx sampleHandle deadPlayer
      = some (deadPlayer, []) := by
    norm_num [processActor, deadPlayer, Actor.character, Character.is_dead, liveCtx,
      Actor.can_be_removed]
  refine ⟨h1, h2, h3, ?_, ?_⟩
  · exact (c3_pickup_gated_on_pre_update_state (dispatchUpdate lethalUpdaters sampleHandle [])
      liveCtx sampleHandle samplePlayer).2 h1 h2 (Vec3.mk 0 0 0) 1
      (Item.mk (Vec3.mk (12499/10000) 0 0) false)
      (by norm_num [dispatchUpdate, lethalUpdaters, samplePlayer, Actor.character]) rfl
      (by norm_num [dispatchUpdate, lethalUpdaters, samplePlayer, Actor.character, liveCtx,
        assocLookup]) rfl rfl
      (by norm_num [Vec3.sub, Vec3.normSq]) |>.elim
      (fun a' hx => hx.elim (fun ms hy => ⟨a', ms, hy.1, hy.2⟩))
  · exact (c3_pickup_gated_on_pre_update_state (fun x => x) liveCtx sampleHandle
      deadPlayer).1 h3 deadPlayer [] h4 sampleHandle 0

/-- C4: for a pre-update live actor under a working channel, the per-actor
step of the tick emits a pick-up-item message referencing this actor and
an item index exactly when that item is unpicked and the Euclidean
distance between item pivot and actor body is strictly below 1.25. -/
theorem c4_pickup_iff_within_radius (upd : Actor → Actor) (ctx : UpdateContext) (h : PoolHandle)
    (a : Actor) (pos : Vec3)
    (halive : a.character.is_dead = false)
    (hsender : (upd a).character.senderPresent = true)
    (hrecv : ctx.receiverAlive = true)
    (hbody : assocLookup ctx.bodies (upd a).character.body = some pos) :
    ∃ a' ms, processActor upd ctx h a = some (a', ms) ∧
      ∀ (h' : PoolHandle) (i : Nat), Message.pickUpItem h' i ∈ ms ↔
        (h' = h ∧ ∃ item, ctx.items.get? i = some item ∧ item.pickedUp = false ∧
          (Vec3.sub item.position pos).normSq < (5/4 : ℚ) ^ 2) :=
  processActor_alive_spec upd ctx h a pos halive hsender hrecv hbody

/-- Witness for C4 at the boundary: the unpicked item at distance exactly
1.25 is not picked up, the one at distance 1.2499 is. -/
theorem c4_witness :
    samplePlayer.character.is_dead = false ∧
    liveCtx.receiverAlive = true ∧
    (∃ a' ms, processActor (fun x => x) liveCtx sampleHandle samplePlayer = some (a', ms) ∧
      Message.pickUpItem sampleHandle 1 ∈ ms ∧ Message.pickUpItem sampleHandle 0 ∉ ms) := by
  have h1 : samplePlayer.character.is_dead = false := by
    norm_num [samplePlayer, Actor.character, Character.is_dead]
  obtain ⟨a', ms, hp, hmem⟩ := c4_pickup_iff_within_radius (fun x => x) liveCtx sampleHandle
    samplePlayer (Vec3.mk 0 0 0) h1 rfl rfl rfl
  refine ⟨h1, rfl, a', ms, hp, ?_, ?_⟩
  · exact (hmem sampleHandle 1).mpr ⟨rfl, Item.mk (Vec3.mk (12499/10000) 0 0) false, rfl, rfl,
      by norm_num [Vec3.sub, Vec3.normSq]⟩
  · intro hin
    obtain ⟨-, item, hk, hup, hdist⟩ := (hmem sampleHandle 0).mp hin
    have hit : item = Item.mk (Vec3.mk (5/4) 0 0) false := by
      have : liveCtx.items.get? 0 = some (Item.mk (Vec3.mk (5/4) 0 0) false) := rfl
      rw [this] at hk
      exact (Option.some.inj hk).symm
    subst hit
    norm_num [Vec3.sub, Vec3.normSq] at hdist

/-- Helper: one actor's Visit in writing mode appends exactly its token
image and returns the actor unchanged. -/
theorem actor_visit_write (a : Actor) (name : String) (input output : List VToken) :
    Actor.visit a name (Visitor.mk false input output) =
      Except.ok (a, Visitor.mk false input (output ++ actorTokens name a)) := by
  cases a <;>
    simp [Actor.visit, enterRegion, visitU32, PlayerState.visit, BotState.visit, leaveRegion,
      actorTokens, payloadToken, Actor.id, Bind.bind, Except.bind]

/-- Helper: one actor's Visit in reading mode consumes exactly its token
image, reconstructing the actor regardless of the value visited into. -/
theorem actor_visit_read (a a0 : Actor) (name : String) (rest output : List VToken) :
    Actor.visit a0 name (Visitor.mk true (actorTokens name a ++ rest) output) =
      Except.ok (a, Visitor.mk true rest output) := by
  cases a <;>
    simp [Actor.visit, enterRegion, visitU32, PlayerState.visit, BotState.visit, leaveRegion,
      actorTokens, payloadToken, Actor.id, Actor.from_id, Bind.bind, Except.bind]

/-- Helper: the writing pass over pooled actors appends the slot tokens in
order. -/
theorem writeActors_spec : ∀ (as : List Actor) (input output : List VToken),
    writeActors as (Visitor.mk false input output) =
      Except.ok (Visitor.mk false input (output ++ actorsTokens as)) := by
  intro as
  induction as with
  | nil =>
    intro input output
    simp [writeActors, actorsTokens]
  | cons a rest ih =>
    intro input output
    simp [writeActors, actor_visit_write, ih, actorsTokens, Bind.bind, Except.bind,
      List.append_assoc]

/-- Helper: the reading pass consumes the slot tokens in order and
reconstructs the original actors. -/
theorem readActors_spec : ∀ (as : List Actor) (rest output : List VToken),
    readActors as.length (Visitor.mk true (actorsTokens as ++ rest) output) =
      Except.ok (as, Visitor.mk true rest output) := by
  intro as
  induction as with
  | nil =>
    intro rest output
    simp [readActors, actorsTokens]
  | cons a tl ih =>
    intro rest output
    have ih' := ih rest output
    simp only [actorsTokens] at ih'
    simp [readActors, actorsTokens, List.append_assoc, actor_visit_read, ih', Bind.bind,
      Except.bind]

/-- C6: serialization writes the kind tag before the variant state block
and reading reconstructs the variant from the tag before its state;
from_id inverts id on every actor (same variant back), and writing a
pooled actor list then reading it back reproduces the original actors,
variant tags included. -/
theorem c6_serialization_roundtrip :
    (∀ a : Actor, ∃ a', Actor.from_id a.id = Except.ok a' ∧ a'.id = a.id) ∧
    (∀ (as : List Actor) (name : String),
      ActorContainer.visitList as name (Visitor.mk false [] []) =
        Except.ok (as, Visitor.mk false [] (containerTokens name as)) ∧
      ActorContainer.visitList [] name (Visitor.mk true (containerTokens name as) []) =
        Except.ok (as, Visitor.mk true [] [])) := by
  constructor
  · intro a
    cases a with
    | bot b => exact ⟨Actor.bot default, rfl, rfl⟩
    | player p => exact ⟨Actor.player default, rfl, rfl⟩
  · intro as name
    constructor
    · simp [ActorContainer.visitList, enterRegion, visitU32, leaveRegion, writeActors_spec,
        containerTokens, Bind.bind, Except.bind, List.append_assoc]
    · simp [ActorContainer.visitList, enterRegion, visitU32, leaveRegion, readActors_spec,
        containerTokens, Bind.bind, Except.bind]

/-- Witness for C6 on a concrete mixed-kind actor list. -/
theorem c6_witness :
    (∃ a', Actor.from_id (Actor.bot (BotState.mk default [])).id = Except.ok a' ∧
      a'.id = (Actor.bot (BotState.mk default [])).id) ∧
    ActorContainer.visitList [Actor.bot (BotState.mk default []), samplePlayer] poolField
      (Visitor.mk false [] []) =
      Except.ok ([Actor.bot (BotState.mk default []), samplePlayer],
        Visitor.mk false []
          (containerTokens poolField [Actor.bot (BotState.mk default []), samplePlayer])) ∧
    ActorContainer.visitList [] poolField
      (Visitor.mk true
        (containerTokens poolField [Actor.bot (BotState.mk default []), samplePlayer]) []) =
      Except.ok ([Actor.bot (BotState.mk default []), samplePlayer], Visitor.mk true [] []) :=
  ⟨c6_serialization_roundtrip.1 (Actor.bot (BotState.mk default [])),
    (c6_serialization_roundtrip.2 [Actor.bot (BotState.mk default []), samplePlayer]
      poolField).1,
    (c6_serialization_roundtrip.2 [Actor.bot (BotState.mk default []), samplePlayer]
      poolField).2⟩

/-- Helper: get? commutes with map. -/
theorem getQ_map {α β : Type} (f : α → β) :
    ∀ (l : List α) (i : Nat), (l.map f).get? i = (l.get? i).map f := by
  intro l
  induction l with
  | nil => intro i; simp
  | cons a t ih =>
    intro i
    cases i with
    | zero => simp
    | succ j =>
      rw [List.get?_cons_succ, List.map_cons, List.get?_cons_succ]
      exact ih j

/-- Helper: get? after set at the same valid index yields the new value. -/
theorem getQ_set_self {α : Type} :
    ∀ (l : List α) (i : Nat) (x r : α), l.get? i = some r → (l.set i x).get? i = some x := by
  intro l
  induction l with
  | nil => intro i x r hg; simp at hg
  | cons a t ih =>
    intro i x r hg
    cases i with
    | zero => simp
    | succ j =>
      rw [List.get?_cons_succ] at hg
      simpa using ih j x r hg

/-- Helper: counting after overwriting a counted element by an uncounted
one drops the count by exactly one. -/
theorem countP_set_succ {α : Type} (p : α → Bool) :
    ∀ (l : List α) (i : Nat) (r x : α), l.get? i = some r → p r = true → p x = false →
      (l.set i x).countP p + 1 = l.countP p := by
  intro l
  induction l with
  | nil => intro i r x hg; simp at hg
  | cons a t ih =>
    intro i r x hg hr hx
    cases i with
    | zero =>
      rw [List.get?_cons_zero] at hg
      cases hg
      simp [List.countP_cons, hr, hx]
    | succ j =>
      rw [List.get?_cons_succ] at hg
      have h := ih j r x hg hr hx
      simp [List.countP_cons]
      omega

/-- Helper: counting is preserved by a map that preserves the predicate. -/
theorem countP_map_congr {α β : Type} (p : β → Bool) (q : α → Bool) (f : α → β)
    (hpf : ∀ a, p (f a) = q a) : ∀ l : List α, (l.map f).countP p = l.countP q := by
  intro l
  induction l with
  | nil => simp
  | cons a t ih => simp [List.countP_cons, ih, hpf]

/-- Helper: a member of a set list is an old member or the new value. -/
theorem mem_set_or {α : Type} :
    ∀ (l : List α) (i : Nat) (x y : α), y ∈ l.set i x → y ∈ l ∨ y = x := by
  intro l
  induction l with
  | nil => intro i x y hm; simp at hm
  | cons a t ih =>
    intro i x y hm
    cases i with
    | zero =>
      rcases List.mem_cons.mp hm with h1 | h1
      · exact Or.inr h1
      · exact Or.inl (List.mem_cons_of_mem _ h1)
    | succ j =>
      rcases List.mem_cons.mp hm with h1 | h1
      · exact Or.inl (h1 ▸ List.mem_cons_self _ _)
      · rcases ih j x y h1 with h2 | h2
        · exact Or.inl (List.mem_cons_of_mem _ h2)
        · exact Or.inr h2

/-- C7: freeing a valid handle notifies every Bot still in the pool of the
removal before the slot is recycled, and afterwards the freed handle is no
longer contained and the live count has dropped by exactly one. -/
theorem c7_free_notifies_and_decrements (c : ActorContainer) (h : PoolHandle)
    (hvalid : c.contains h = true) :
    ∃ c', c.free h = some c' ∧ c'.contains h = false ∧ c'.count + 1 = c.count ∧
      ∀ r ∈ c'.pool.records, ∀ b, r.payload = some (Actor.bot b) → h ∉ b.knownActors := by
  rw [ActorContainer.contains, Pool.is_valid_handle] at hvalid
  cases hr : c.pool.records.get? h.index with
  | none =>
    rw [hr] at hvalid
    cases hvalid
  | some r =>
    rw [hr] at hvalid
    obtain ⟨hgen, hsome⟩ : (r.generation == h.generation) = true ∧ r.payload.isSome = true := by
      simpa using hvalid
    obtain ⟨pa, hpa⟩ := Option.isSome_iff_exists.mp hsome
    have hmap : (notifyRemoved c.pool h).records.get? h.index =
        some (PoolRecord.mk r.generation (some (notifyActor h pa))) := by
      simp only [notifyRemoved, getQ_map, hr, Option.map_some', hpa]
    refine ⟨ActorContainer.mk (Pool.mk ((notifyRemoved c.pool h).records.set h.index
      (PoolRecord.mk (r.generation + 1) none))), ?_, ?_, ?_, ?_⟩
    · rw [ActorContainer.free, Pool.free, hmap]
      simp [hgen]
    · rw [ActorContainer.contains, Pool.is_valid_handle]
      rw [getQ_set_self _ _ _ _ hmap]
      simp
    · rw [ActorContainer.count, Pool.alive_count, ActorContainer.count, Pool.alive_count]
      have hstep := countP_set_succ (fun q => q.payload.isSome)
        (notifyRemoved c.pool h).records h.index
        (PoolRecord.mk r.generation (some (notifyActor h pa)))
        (PoolRecord.mk (r.generation + 1) none) hmap rfl rfl
      rw [hstep]
      exact countP_map_congr _ _ _ (fun q => by cases q.payload <;> simp [notifyRemoved]) _
    · intro r' hmem b hpb
      rcases mem_set_or _ _ _ _ hmem with hin | hnew
      · obtain ⟨r0, hr0, hfr0⟩ := List.mem_map.mp hin
        rw [← hfr0] at hpb
        simp only at hpb
        obtain ⟨a0, ha0, hna⟩ := Option.map_eq_some'.mp hpb
        cases a0 with
        | player q => simp [notifyActor] at hna
        | bot b0 =>
          rw [notifyActor] at hna
          injection hna with hb
          rw [← hb]
          simp [BotState.on_actor_removed, List.mem_filter]
      · rw [hnew] at hpb
        simp at hpb

/-- Witness for C7: freeing the second bot of the two-bot container. -/
theorem c7_witness :
    twoBotContainer.contains staleHandle = true ∧
    (∃ c', twoBotContainer.free staleHandle = some c' ∧
      c'.contains staleHandle = false ∧ c'.count + 1 = twoBotContainer.count ∧
      ∀ r ∈ c'.pool.records, ∀ b, r.payload = some (Actor.bot b) → staleHandle ∉ b.knownActors) :=
  ⟨rfl, c7_free_notifies_and_decrements twoBotContainer staleHandle rfl⟩

/-- C9: the notification loop of free runs over every actor still in the
pool, including the one stored at the freed handle itself: when a Bot sits
at that handle, it is notified of its own removal (its reference to the
freed handle is dropped) before the slot is freed, since free runs the
pool free only on the already-notified pool. -/
theorem c9_freed_bot_notified (c : ActorContainer) (h : PoolHandle) (r : PoolRecord)
    (b : BotState)
    (hget : c.pool.records.get? h.index = some r)
    (hpay : r.payload = some (Actor.bot b)) :
    ActorContainer.free c h = (Pool.free (notifyRemoved c.pool h) h).map ActorContainer.mk ∧
    (notifyRemoved c.pool h).records.get? h.index =
      some (PoolRecord.mk r.generation (some (Actor.bot (b.on_actor_removed h)))) ∧
    h ∉ (b.on_actor_removed h).knownActors := by
  refine ⟨rfl, ?_, ?_⟩
  · simp only [notifyRemoved, getQ_map, hget, Option.map_some', hpay, notifyActor]
  · simp [BotState.on_actor_removed, List.mem_filter]

/-- Witness for C9: the bot sitting at the freed handle of the two-bot
container, which holds a reference to its own handle. -/
theorem c9_witness :
    twoBotContainer.pool.records.get? staleHandle.index =
      some (PoolRecord.mk 3 (some selfBot)) ∧
    (notifyRemoved twoBotContainer.pool staleHandle).records.get? staleHandle.index =
      some (PoolRecord.mk 3 (some (Actor.bot
        ((BotState.mk (Character.mk 30 3 true false) [staleHandle]).on_actor_removed
          staleHandle)))) ∧
    staleHandle ∉
      ((BotState.mk (Character.mk 30 3 true false) [staleHandle]).on_actor_removed
        staleHandle).knownActors :=
  ⟨rfl,
    (c9_freed_bot_notified twoBotContainer staleHandle (PoolRecord.mk 3 (some selfBot))
      (BotState.mk (Character.mk 30 3 true false) [staleHandle]) rfl rfl).2.1,
    (c9_freed_bot_notified twoBotContainer staleHandle (PoolRecord.mk 3 (some selfBot))
      (BotState.mk (Character.mk 30 3 true false) [staleHandle]) rfl rfl).2.2⟩

/-- Helper: lookup in the linear-velocity-updating map touches only the
updated key, and there only the velocity field. -/
theorem assocLookup_linvel_map (l : List (Nat × RigidBody)) (k key : Nat) (v : Vec3) :
    assocLookup (l.map (fun kb => if kb.1 = k then (kb.1, RigidBody.mk kb.2.colliders v)
      else kb)) key =
      (if key = k then (assocLookup l key).map (fun bb => RigidBody.mk bb.colliders v)
      else assocLookup l key) := by
  induction l with
  | nil => simp [assocLookup]
  | cons p t ih =>
    obtain ⟨pk, pb⟩ := p
    simp only [List.map_cons]
    by_cases h1 : pk = k
    · rw [if_pos h1]
      by_cases h2 : pk = key
      · subst h2
        simp [assocLookup, h1]
      · have hkk : ¬ key = k := fun hh => h2 (h1.trans hh.symm)
        simp [assocLookup, h2, hkk, ih]
    · rw [if_neg h1]
      by_cases h2 : pk = key
      · subst h2
        simp [assocLookup, h1]
      · simp [assocLookup, h2, ih]

/-- Helper: the same fact phrased through setLinvel. -/
theorem assocLookup_setLinvel (phys : Physics) (k key : Nat) (v : Vec3) :
    assocLookup (setLinvel phys k v).bodies key =
      (if key = k then (assocLookup phys.bodies key).map (fun bb => RigidBody.mk bb.colliders v)
      else assocLookup phys.bodies key) :=
  assocLookup_linvel_map phys.bodies k key v

/-- Helper: setting a linear velocity leaves the collider and handle
registries untouched, so collider resolution is unchanged. -/
theorem resolveBody_setLinvel (phys : Physics) (k : Nat) (v : Vec3) (c : Nat) :
    resolveBody (setLinvel phys k v) c = resolveBody phys c := rfl

/-- Helper: collider resolution only reads the collider and handle
registries. -/
theorem resolveBody_congr (p q : Physics) (hc : p.colliderParent = q.colliderParent)
    (hh : p.bodyHandleMap = q.bodyHandleMap) (c : Nat) : resolveBody p c = resolveBody q c := by
  rw [resolveBody, resolveBody, hc, hh]

/-- Helper: one unfolding step of the last-matching-pad force. -/
theorem lastMatchForce_cons (a b ca cb c0 : Nat) (q : JumpPad) (qs : List JumpPad) (v : Vec3) :
    lastMatchForce a b ca cb c0 (q :: qs) v =
      lastMatchForce a b ca cb c0 qs (if padMatches a b ca cb c0 q then q.force else v) := rfl

/-- Helper: when every matching pad carries force F, folding from F stays
at F. -/
theorem lastMatchForce_keep (a b ca cb c0 : Nat) (F : Vec3) :
    ∀ pads : List JumpPad, (∀ p ∈ pads, padMatches a b ca cb c0 p = true → p.force = F) →
      lastMatchForce a b ca cb c0 pads F = F := by
  intro pads
  induction pads with
  | nil => intro hall; rfl
  | cons q qs ih =>
    intro hall
    have htail : ∀ p ∈ qs, padMatches a b ca cb c0 p = true → p.force = F :=
      fun p hp hm => hall p (List.mem_cons_of_mem _ hp) hm
    by_cases hq : padMatches a b ca cb c0 q = true
    · rw [lastMatchForce_cons, if_pos hq, hall q (List.mem_cons_self _ _) hq]
      exact ih htail
    · rw [lastMatchForce_cons, if_neg hq]
      exact ih htail

/-- Helper: when some pad matches and every matching pad carries force F,
the fold ends at F whatever the starting velocity. -/
theorem lastMatchForce_eq (a b ca cb c0 : Nat) (F : Vec3) :
    ∀ (pads : List JumpPad) (v : Vec3),
      (∀ p ∈ pads, padMatches a b ca cb c0 p = true → p.force = F) →
      (∃ p ∈ pads, padMatches a b ca cb c0 p = true) →
      lastMatchForce a b ca cb c0 pads v = F := by
  intro pads
  induction pads with
  | nil =>
    intro v hall hex
    obtain ⟨p, hp, _⟩ := hex
    simp at hp
  | cons q qs ih =>
    intro v hall hex
    have htail : ∀ p ∈ qs, padMatches a b ca cb c0 p = true → p.force = F :=
      fun p hp hm => hall p (List.mem_cons_of_mem _ hp) hm
    by_cases hq : padMatches a b ca cb c0 q = true
    · rw [lastMatchForce_cons, if_pos hq, hall q (List.mem_cons_self _ _) hq]
      exact lastMatchForce_keep a b ca cb c0 F qs htail
    · rw [lastMatchForce_cons, if_neg hq]
      obtain ⟨p, hp, hm⟩ := hex
      rcases List.mem_cons.mp hp with h1 | h1
      · exact absurd (h1 ▸ hm) hq
      · exact ih v htail ⟨p, h1, hm⟩

/-- Helper: full specification of the pad loop over one body: it succeeds,
touches no other registry and no other body, and leaves the body with its
colliders intact and its velocity at the last matching pad's force. -/
theorem padScan_spec (a b bh ca cb : Nat) :
    ∀ (pads : List JumpPad) (phys : Physics) (body : RigidBody) (c0 : Nat),
      resolveBody phys a = some ca → resolveBody phys b = some cb →
      assocLookup phys.bodies bh = some body → body.colliders.head? = some c0 →
      ∃ phys', padScan a b bh pads phys = some phys' ∧
        phys'.colliderParent = phys.colliderParent ∧
        phys'.bodyHandleMap = phys.bodyHandleMap ∧
        (∀ k, k ≠ bh → assocLookup phys'.bodies k = assocLookup phys.bodies k) ∧
        assocLookup phys'.bodies bh =
          some (RigidBody.mk body.colliders (lastMatchForce a b ca cb c0 pads body.linvel)) := by
  intro pads
  induction pads with
  | nil =>
    intro phys body c0 hra hrb hlb hc0
    refine ⟨phys, rfl, rfl, rfl, fun k _ => rfl, ?_⟩
    rw [hlb]
    rfl
  | cons pad rest ih =>
    intro phys body c0 hra hrb hlb hc0
    by_cases hq : padMatches a b ca cb c0 pad = true
    · have hra' : resolveBody (setLinvel phys bh pad.force) a = some ca := by
        rw [resolveBody_setLinvel]
        exact hra
      have hrb' : resolveBody (setLinvel phys bh pad.force) b = some cb := by
        rw [resolveBody_setLinvel]
        exact hrb
      have hlb' : assocLookup (setLinvel phys bh pad.force).bodies bh =
          some (RigidBody.mk body.colliders pad.force) := by
        rw [assocLookup_setLinvel, if_pos rfl, hlb]
        rfl
      obtain ⟨phys'', hscan, hcp, hhm, hframe, hfinal⟩ :=
        ih (setLinvel phys bh pad.force) (RigidBody.mk body.colliders pad.force) c0
          hra' hrb' hlb' hc0
      refine ⟨phys'', ?_, hcp, hhm, ?_, ?_⟩
      · simp [padScan, hra, hrb, hlb, hc0, hq, hscan]
      · intro k hk
        rw [hframe k hk, assocLookup_setLinvel, if_neg hk]
      · rw [hfinal, lastMatchForce_cons, if_pos hq]
    · obtain ⟨phys'', hscan, hcp, hhm, hframe, hfinal⟩ := ih phys body c0 hra hrb hlb hc0
      refine ⟨phys'', ?_, hcp, hhm, hframe, ?_⟩
      · simp [padScan, hra, hrb, hlb, hc0, hq, hscan]
      · rw [hfinal, lastMatchForce_cons, if_neg hq]

/-- Helper: once the tracked body carries force F on its unchanged
colliders, scanning the remaining actors keeps it there, because every
pad matching its capsule carries F and other actors only write their own
bodies. -/
theorem actorScan_keep (a b : Nat) (pads : List JumpPad) (ca cb bh c0 : Nat) (cols : List Nat)
    (F : Vec3) (hcols : cols.head? = some c0)
    (hforce : ∀ p ∈ pads, padMatches a b ca cb c0 p = true → p.force = F) :
    ∀ (actors : List Actor) (phys : Physics),
      resolveBody phys a = some ca → resolveBody phys b = some cb →
      (∀ x ∈ actors, ∃ bx, assocLookup phys.bodies x.character.body = some bx ∧
        bx.colliders.head?.isSome = true) →
      assocLookup phys.bodies bh = some (RigidBody.mk cols F) →
      ∃ phys', actorScan a b pads actors phys = some phys' ∧
        assocLookup phys'.bodies bh = some (RigidBody.mk cols F) := by
  intro actors
  induction actors with
  | nil =>
    intro phys hra hrb hpres hbh
    exact ⟨phys, rfl, hbh⟩
  | cons x rest ih =>
    intro phys hra hrb hpres hbh
    obtain ⟨bx, hbx, hbxs⟩ := hpres x (List.mem_cons_self _ _)
    obtain ⟨cx, hcx⟩ := Option.isSome_iff_exists.mp hbxs
    by_cases hxbh : x.character.body = bh
    · have hbxeq : bx = RigidBody.mk cols F := by
        rw [hxbh] at hbx
        exact Option.some.inj (hbx.symm.trans hbh)
      subst hbxeq
      have hcxc0 : cx = c0 := Option.some.inj (hcx.symm.trans hcols)
      subst hcxc0
      obtain ⟨phys1, hscan, hcp, hhm, hframe, hfinal⟩ :=
        padScan_spec a b x.character.body ca cb pads phys (RigidBody.mk cols F) cx
          hra hrb hbx hcx
      rw [hxbh] at hfinal
      rw [lastMatchForce_keep a b ca cb cx F pads hforce] at hfinal
      have hra1 : resolveBody phys1 a = some ca := by
        rw [resolveBody_congr phys1 phys hcp hhm]
        exact hra
      have hrb1 : resolveBody phys1 b = some cb := by
        rw [resolveBody_congr phys1 phys hcp hhm]
        exact hrb
      have hpres1 : ∀ y ∈ rest, ∃ bx, assocLookup phys1.bodies y.character.body = some bx ∧
          bx.colliders.head?.isSome = true := by
        intro y hy
        by_cases hyb : y.character.body = bh
        · refine ⟨RigidBody.mk cols F, ?_, by simp [hcols]⟩
          rw [hyb]
          exact hfinal
        · obtain ⟨by0, hby0, hby0s⟩ := hpres y (List.mem_cons_of_mem _ hy)
          refine ⟨by0, ?_, hby0s⟩
          rw [← hxbh] at hyb
          rw [hframe _ hyb]
          exact hby0
      obtain ⟨phys', hscan', hkeep⟩ := ih phys1 hra1 hrb1 hpres1 hfinal
      exact ⟨phys', by simp [actorScan, hscan, hscan'], hkeep⟩
    · obtain ⟨phys1, hscan, hcp, hhm, hframe, hfinal⟩ :=
        padScan_spec a b x.character.body ca cb pads phys bx cx hra hrb hbx hcx
      have hra1 : resolveBody phys1 a = some ca := by
        rw [resolveBody_congr phys1 phys hcp hhm]
        exact hra
      have hrb1 : resolveBody phys1 b = some cb := by
        rw [resolveBody_congr phys1 phys hcp hhm]
        exact hrb
      have hbh1 : assocLookup phys1.bodies bh = some (RigidBody.mk cols F) := by
        rw [hframe bh (fun hh => hxbh hh.symm)]
        exact hbh
      have hpres1 : ∀ y ∈ rest, ∃ bx, assocLookup phys1.bodies y.character.body = some bx ∧
          bx.colliders.head?.isSome = true := by
        intro y hy
        by_cases hyb : y.character.body = x.character.body
        · refine ⟨RigidBody.mk bx.colliders (lastMatchForce a b ca cb cx pads bx.linvel), ?_,
            by simp [hcx]⟩
          rw [hyb]
          exact hfinal
        · obtain ⟨by0, hby0, hby0s⟩ := hpres y (List.mem_cons_of_mem _ hy)
          refine ⟨by0, ?_, hby0s⟩
          rw [hframe _ hyb]
          exact hby0
      obtain ⟨phys', hscan', hkeep⟩ := ih phys1 hra1 hrb1 hpres1 hbh1
      exact ⟨phys', by simp [actorScan, hscan, hscan'], hkeep⟩

/-- Helper: the full actor loop launches the distinguished actor's body to
F, the common force of all pads matching its capsule, of which at least
one matches. -/
theorem actorScan_launch (a b : Nat) (pads : List JumpPad) (ca cb : Nat) (F : Vec3) :
    ∀ (actors : List Actor) (phys : Physics) (actor : Actor) (body : RigidBody) (c0 : Nat),
      actor ∈ actors →
      resolveBody phys a = some ca → resolveBody phys b = some cb →
      (∀ x ∈ actors, ∃ bx, assocLookup phys.bodies x.character.body = some bx ∧
        bx.colliders.head?.isSome = true) →
      assocLookup phys.bodies actor.character.body = some body →
      body.colliders.head? = some c0 →
      (∃ p ∈ pads, padMatches a b ca cb c0 p = true) →
      (∀ p ∈ pads, padMatches a b ca cb c0 p = true → p.force = F) →
      (∀ x ∈ actors, x.character.body = actor.character.body → x = actor) →
      ∃ phys', actorScan a b pads actors phys = some phys' ∧
        assocLookup phys'.bodies actor.character.body =
          some (RigidBody.mk body.colliders F) := by
  intro actors
  induction actors with
  | nil =>
    intro phys actor body c0 hmem
    simp at hmem
  | cons x rest ih =>
    intro phys actor body c0 hmem hra hrb hpres hbody hc0 hex hforce huniq
    by_cases hx : x.character.body = actor.character.body
    · have hxa : x = actor := huniq x (List.mem_cons_self _ _) hx
      subst hxa
      obtain ⟨phys1, hscan, hcp, hhm, hframe, hfinal⟩ :=
        padScan_spec a b x.character.body ca cb pads phys body c0 hra hrb hbody hc0
      rw [lastMatchForce_eq a b ca cb c0 F pads body.linvel hforce hex] at hfinal
      have hra1 : resolveBody phys1 a = some ca := by
        rw [resolveBody_congr phys1 phys hcp hhm]
        exact hra
      have hrb1 : resolveBody phys1 b = some cb := by
        rw [resolveBody_congr phys1 phys hcp hhm]
        exact hrb
      have hpres1 : ∀ y ∈ rest, ∃ bx, assocLookup phys1.bodies y.character.body = some bx ∧
          bx.colliders.head?.isSome = true := by
        intro y hy
        by_cases hyb : y.character.body = x.character.body
        · refine ⟨RigidBody.mk body.colliders F, ?_, by simp [hc0]⟩
          rw [hyb]
          exact hfinal
        · obtain ⟨by0, hby0, hby0s⟩ := hpres y (List.mem_cons_of_mem _ hy)
          refine ⟨by0, ?_, hby0s⟩
          rw [hframe _ hyb]
          exact hby0
      obtain ⟨phys', hscan', hkeep⟩ := actorScan_keep a b pads ca cb x.character.body c0
        body.colliders F hc0 hforce rest phys1 hra1 hrb1 hpres1 hfinal
      exact ⟨phys', by simp [actorScan, hscan, hscan'], hkeep⟩
    · have hmem' : actor ∈ rest := by
        rcases List.mem_cons.mp hmem with h1 | h1
        · exact absurd (by rw [h1]) hx
        · exact h1
      obtain ⟨bx, hbx, hbxs⟩ := hpres x (List.mem_cons_self _ _)
      obtain ⟨cx, hcx⟩ := Option.isSome_iff_exists.mp hbxs
      obtain ⟨phys1, hscan, hcp, hhm, hframe, hfinal⟩ :=
        padScan_spec a b x.character.body ca cb pads phys bx cx hra hrb hbx hcx
      have hra1 : resolveBody phys1 a = some ca := by
        rw [resolveBody_congr phys1 phys hcp hhm]
        exact hra
      have hrb1 : resolveBody phys1 b = some cb := by
        rw [resolveBody_congr phys1 phys hcp hhm]
        exact hrb
      have hbody1 : assocLookup phys1.bodies actor.character.body = some body := by
        rw [hframe _ (fun hh => hx hh.symm)]
        exact hbody
      have hpres1 : ∀ y ∈ rest, ∃ bx, assocLookup phys1.bodies y.character.body = some bx ∧
          bx.colliders.head?.isSome = true := by
        intro y hy
        by_cases hyb : y.character.body = x.character.body
        · refine ⟨RigidBody.mk bx.colliders (lastMatchForce a b ca cb cx pads bx.linvel), ?_,
            by simp [hcx]⟩
          rw [hyb]
          exact hfinal
        · obtain ⟨by0, hby0, hby0s⟩ := hpres y (List.mem_cons_of_mem _ hy)
          refine ⟨by0, ?_, hby0s⟩
          rw [hframe _ hyb]
          exact hby0
      have huniq1 : ∀ y ∈ rest, y.character.body = actor.character.body → y = actor :=
        fun y hy => huniq y (List.mem_cons_of_mem _ hy)
      obtain ⟨phys', hscan', hlook⟩ := ih phys1 actor body c0 hmem' hra1 hrb1 hpres1 hbody1
        hc0 hex hforce huniq1
      exact ⟨phys', by simp [actorScan, hscan, hscan'], hlook⟩

/-- C8 counterexample: with two jump pads on the same rigid body but
different forces, the first pad matches the contact yet the actor's final
velocity is the second pad's force, not the first's, so the claim's
per-pad equality fails as stated. -/
theorem c8_counterexample :
    padMatches 100 101 10 11 100 c8padA = true ∧
    ActorContainer.handle_event (ContactEvent.started 100 101) [c8padA, c8padB] [c8actor]
      c8phys =
      some (Physics.mk [(100, 500), (101, 501)] [(10, 500), (11, 501)]
        [(10, RigidBody.mk [100] (Vec3.mk 2 0 0))]) ∧
    Vec3.mk 2 0 0 ≠ c8padA.force := by
  refine ⟨rfl, ?_, ?_⟩
  · rfl
  · intro hv
    have h2 : (2 : ℚ) = 1 := congrArg Vec3.x hv
    norm_num at h2

/-- C8, amended: on a started contact event, for every live actor and
every jump pad whose match condition holds (the actor's capsule collider
is one contact collider, the pad's rigid body resolves from the other),
the actor body's velocity after handle_event equals that pad's force,
provided no other matching pad carries a different force and no other
actor shares the body; in general the body ends at the force of the last
matching pad in iteration order. -/
theorem c8_jump_pad_launch (a b : Nat) (pads : List JumpPad) (actors : List Actor)
    (phys : Physics) (actor : Actor) (body : RigidBody) (c0 ca cb : Nat) (pad : JumpPad)
    (hmem : actor ∈ actors)
    (hra : resolveBody phys a = some ca) (hrb : resolveBody phys b = some cb)
    (hpres : ∀ x ∈ actors, ∃ bx, assocLookup phys.bodies x.character.body = some bx ∧
      bx.colliders.head?.isSome = true)
    (hbody : assocLookup phys.bodies actor.character.body = some body)
    (hc0 : body.colliders.head? = some c0)
    (hpad : pad ∈ pads) (hmatch : padMatches a b ca cb c0 pad = true)
    (hforce : ∀ p ∈ pads, padMatches a b ca cb c0 p = true → p.force = pad.force)
    (huniq : ∀ x ∈ actors, x.character.body = actor.character.body → x = actor) :
    ∃ phys', ActorContainer.handle_event (ContactEvent.started a b) pads actors phys =
      some phys' ∧
      assocLookup phys'.bodies actor.character.body =
        some (RigidBody.mk body.colliders pad.force) :=
  actorScan_launch a b pads ca cb pad.force actors phys actor body c0 hmem hra hrb hpres
    hbody hc0 ⟨pad, hpad, hmatch⟩ hforce huniq

/-- Witness for C8: a single pad and a single actor, where the velocity
after the event is exactly the pad's force. -/
theorem c8_witness :
    padMatches 100 101 10 11 100 c8padA = true ∧
    (∃ phys', ActorContainer.handle_event (ContactEvent.started 100 101) [c8padA] [c8actor]
      c8phys = some phys' ∧
      assocLookup phys'.bodies c8actor.character.body =
        some (RigidBody.mk [100] c8padA.force)) := by
  refine ⟨rfl, ?_⟩
  exact c8_jump_pad_launch 100 101 [c8padA] [c8actor] c8phys c8actor
    (RigidBody.mk [100] (Vec3.mk 0 0 0)) 100 10 11 c8padA
    (List.mem_cons_self _ _) rfl rfl
    (by
      intro x hx
      rw [List.mem_singleton.mp hx]
      exact ⟨RigidBody.mk [100] (Vec3.mk 0 0 0), rfl, rfl⟩)
    rfl rfl (List.mem_cons_self _ _) rfl
    (by
      intro p hp hm
      rw [List.mem_singleton.mp hp])
    (by
      intro x hx hb
      exact List.mem_singleton.mp hx)
